import Mathlib

/-!
Verification of the `DynamicNavigation` widget (src/src/scripts/navigation.ts).

The TypeScript class manipulates a fixed small set of DOM elements.  We embed
it shallowly:

* pixel measurements (`offsetHeight`, `getBoundingClientRect().top/.bottom`,
  `scrollTop`, `innerWidth`, millisecond delays) are rationals;
* an inline `style.transform` value is a term of the inductive `Ty`, whose
  constructors correspond one-to-one to the string templates the source
  writes: `Ty.zero` for the literal 'translateY(0)', `Ty.px v` for
  interpolation of v into "translateY(_px)" with no extra sign,
  `Ty.negPx v` for interpolation of v after a literal minus sign
  (the template used by expandRow and the collapse content movement), and
  `Ty.negPct100` for the literal 'translateY(-100%)';
* `setTimeout` chains become lists of (delay, action) pairs, listed in
  firing order, together with an interpreter folding the actions over a
  style state;
* a DOM element that may be absent (`document.getElementById` returning
  null) is an `Option` / `Bool` presence flag; the thrown `TypeError` of a
  null dereference is an `Except.error`.
-/

set_option autoImplicit false

namespace DynamicNavigation

/-- A `style.transform` value, by the exact template the source writes. -/
inductive Ty where
  | zero
  | px (v : ℚ)
  | negPx (v : ℚ)
  | negPct100
deriving DecidableEq, Repr

/-- The CSS pixel offset a `Ty` denotes, when it is well-formed pixel CSS.
`negPx v` interpolates `v` after a literal minus sign, so for `v < 0` the
written text contains a double minus and is invalid CSS (`none`); the
percentage form is not a pixel value. -/
def Ty.pxVal : Ty → Option ℚ
  | Ty.zero => some 0
  | Ty.px v => some v
  | Ty.negPx v => if 0 ≤ v then some (-v) else none
  | Ty.negPct100 => none

/-- `getBoundingClientRect()` of a row: its top and bottom in viewport
coordinates (down is positive). -/
structure Rect where
  top : ℚ
  bottom : ℚ
deriving DecidableEq, Repr

/-- A registered row element: an identity (elements with distinct ids are
distinct objects, so `===` is identity equality) plus its measured
geometry. -/
structure RowEl where
  eid : ℕ
  rect : Rect
deriving DecidableEq, Repr

instance : Inhabited RowEl := ⟨⟨0, ⟨0, 0⟩⟩⟩

/-- `this.transitionPace = 100.0 / this.navRow1!.offsetHeight` (ms per px). -/
def transitionPace (navRow1Height : ℚ) : ℚ := 100 / navRow1Height

/-- `isRowFolded` (navigation.ts lines 147-158): false for the first element
of the displayed-row registry, otherwise compares the row's top with the
bottom of the registry entry just before `indexOf(row)`. -/
def isRowFolded (registry : List RowEl) (row : RowEl) : Bool :=
  if registry.head? = some row then false
  else
    let rowTop := row.rect.top
    let previousRow := registry.getD (registry.indexOf row - 1) default
    decide (rowTop < previousRow.rect.bottom)

/-- The `distance` local of `expandRow` (line 172):
`row.getBoundingClientRect().top - registry[index - 1].getBoundingClientRect().bottom`. -/
def expandRowDistance (registry : List RowEl) (row : RowEl) : ℚ :=
  row.rect.top - (registry.getD (registry.indexOf row - 1) default).rect.bottom

/-- The distance as the specification words it for the expand operation:
predecessor's bottom minus the row's top (the claim under review; compare
with `expandRowDistance`, which is what the source computes). -/
def specClaimedExpandDistance (registry : List RowEl) (row : RowEl) : ℚ :=
  (registry.getD (registry.indexOf row - 1) default).rect.bottom - row.rect.top

/-- One scheduled style write of `expandRow`: at delay `time`, registry entry
`index` receives `transform` and a transition of `transitionDurationMs`. -/
structure RowMove where
  index : ℕ
  time : ℚ
  transform : Ty
  transitionDurationMs : ℚ
deriving DecidableEq, Repr

/-- `expandRow` (lines 164-182): returns the schedule time
`transitionPace * distance` and, for a folded row, one scheduled write per
registry entry from `indexOf(row)` to the end, each at delay `baseTime`,
setting the transform template `translateY(-${distance}px)` and transition
duration `scheduleTime`. -/
def expandRow (pace : ℚ) (registry : List RowEl) (row : RowEl) (baseTime : ℚ) :
    ℚ × List RowMove :=
  if isRowFolded registry row = false then (0, [])
  else
    (pace * expandRowDistance registry row,
      ((List.range registry.length).filter
          (fun i => decide (registry.indexOf row ≤ i))).map
        (fun i => { index := i, time := baseTime,
                    transform := Ty.negPx (expandRowDistance registry row),
                    transitionDurationMs := pace * expandRowDistance registry row }))

/-- A nav row as the scroll handler sees it: measured height plus its current
inline transform and opacity. -/
structure NavRow where
  height : ℚ
  transform : Ty
  opacity : String
deriving DecidableEq, Repr

/-- `scrollThreshold` local of `updateHeaders` (line 337). -/
def scrollThreshold : ℚ := 10

/-- The per-row loop of `updateHeaders` (lines 353-391), carrying the running
`cumulativeHeight` as `start`: if `totalScroll` has reached the row's start
position the row is translated by `-min(scrollBeyondStart, height)` pixels,
otherwise it is reset to 'translateY(0)'. -/
def updateRowsFrom (totalScroll : ℚ) : ℚ → List NavRow → List NavRow
  | _, [] => []
  | start, r :: rs =>
    let r' :=
      if start ≤ totalScroll then
        let beyond := totalScroll - start
        if r.height ≤ beyond then { r with transform := Ty.px (-r.height) }
        else { r with transform := Ty.px (-beyond) }
      else { r with transform := Ty.zero }
    r' :: updateRowsFrom totalScroll (start + r.height) rs

/-- `updateHeaders` (lines 336-393): with `totalScroll = scrollTop - 10`, a
non-positive `totalScroll` resets the rows (only when expanded); otherwise
the progressive movement runs only when expanded, and when collapsed the
rows are untouched. -/
def updateHeaders (expanded : Bool) (scrollTop : ℚ) (rows : List NavRow) :
    List NavRow :=
  let totalScroll := scrollTop - scrollThreshold
  if totalScroll ≤ 0 then
    if expanded then
      rows.map (fun r => { r with transform := Ty.zero, opacity := "1" })
    else rows
  else if expanded then updateRowsFrom totalScroll 0 rows
  else rows

/-- Start position of row `i`: the sum of the heights of the rows before it
(the `startPosition` field built by the `cumulativeHeight` fold). -/
def startPos (rows : List NavRow) (i : ℕ) : ℚ :=
  ((rows.take i).map NavRow.height).sum

/-- The widget state fields touched by the public accessors and the toggle:
`isNavExpanded` (line 19), `regionWhichTheTextIsAt` (line 22),
`lastScrollTop` (line 18). -/
structure NavState where
  isNavExpanded : Bool
  regionWhichTheTextIsAt : Int
  lastScrollTop : ℚ
deriving DecidableEq, Repr

/-- Field initializers of the class: collapsed, region 1, scroll 0. -/
def initNavState : NavState :=
  { isNavExpanded := false, regionWhichTheTextIsAt := 1, lastScrollTop := 0 }

/-- `toggleNavExpansion` (lines 128-141) restricted to the state fields: it
negates `isNavExpanded` (the expand/collapse schedules it then triggers are
modelled by `expandNavRows` / `collapseNavRowsWithContentMovement`). -/
def toggleNavExpansion (s : NavState) : NavState :=
  { s with isNavExpanded := !s.isNavExpanded }

/-- `getNavExpandedState` (lines 422-424). -/
def getNavExpandedState (s : NavState) : Bool := s.isNavExpanded

/-- `getCurrentRegion` (lines 414-416). -/
def getCurrentRegion (s : NavState) : Int := s.regionWhichTheTextIsAt

/-- `setCurrentRegion` (lines 418-420): stores the argument unchecked. -/
def setCurrentRegion (s : NavState) (region : Int) : NavState :=
  { s with regionWhichTheTextIsAt := region }

/-- `MAX_NAV_ROWS` (line 14). -/
def MAX_NAV_ROWS : ℕ := 5

/-- `ANIMATION_DURATION` (line 15), in milliseconds. -/
def ANIMATION_DURATION : ℚ := 500

/-- The schedule produced by `expandNavRows` (lines 227-253): the container
max-height is set to the summed row heights at once; nav row `i` receives
'translateY(0)' and opacity '1' at delay `i * 100`; every title row is reset
to 'translateY(0)' at delay `rows.length * 100 + 100`. -/
structure ExpandSchedule where
  containerMaxHeightPx : ℚ
  rowAppearDelays : List ℚ
  titleResetDelay : ℚ
deriving DecidableEq, Repr

/-- `expandNavRows`: returns `none` when the container element is absent
(the early `return` on line 228), otherwise the schedule. -/
def expandNavRows (hasContainer : Bool) (heights : List ℚ) :
    Option ExpandSchedule :=
  if hasContainer then
    some { containerMaxHeightPx := heights.sum,
           rowAppearDelays := (List.range heights.length).map (fun i => (i : ℚ) * 100),
           titleResetDelay := (heights.length : ℚ) * 100 + 100 }
  else none

/-- One timed callback of the collapse sequence.  `hideRow i accum` is the
per-row timeout: row `i` gets 'translateY(-100%)' and opacity '0', and the
title rows and content get the template `translateY(-${accum}px)` where
`accum` is `totalMovedDistance` at that firing. -/
inductive CollapseAction where
  | hideRow (i : ℕ) (accum : ℚ)
  | hideContainer
  | resetAll
deriving DecidableEq, Repr

/-- The style state the collapse sequence mutates: one transform/opacity per
nav row, the title rows' transforms, the content transform, and the
container's max-height string. -/
structure StyleState where
  navTransforms : List Ty
  navOpacities : List String
  titleTransforms : List Ty
  contentTransform : Ty
  containerMaxHeight : String
deriving DecidableEq, Repr

/-- Interpreter for one collapse callback.  `hasContent` models the
`if (this.contentScroll)` guards: when false the content transform is left
alone. -/
def applyCollapse (hasContent : Bool) (a : CollapseAction) (s : StyleState) :
    StyleState :=
  match a with
  | CollapseAction.hideRow i accum =>
      { s with navTransforms := s.navTransforms.set i Ty.negPct100,
               navOpacities := s.navOpacities.set i "0",
               titleTransforms := s.titleTransforms.map (fun _ => Ty.negPx accum),
               contentTransform :=
                 if hasContent then Ty.negPx accum else s.contentTransform }
  | CollapseAction.hideContainer => { s with containerMaxHeight := "0" }
  | CollapseAction.resetAll =>
      { s with navTransforms := s.navTransforms.map (fun _ => Ty.zero),
               navOpacities := s.navOpacities.map (fun _ => "1"),
               titleTransforms := s.titleTransforms.map (fun _ => Ty.zero),
               contentTransform :=
                 if hasContent then Ty.zero else s.contentTransform }

/-- The timed callbacks of `collapseNavRowsWithContentMovement`
(lines 256-313), in firing order.  The row with index `n - 1 - j` fires at
delay `j * 100` (reverse stagger); at that point `totalMovedDistance` is the
sum of the heights of the rows already fired, `(heights.drop (n-1-j)).sum`.
The container is hidden at `n * 100 + ANIMATION_DURATION` and the nested
150 ms timeout resets every transform and opacity. -/
def collapseSchedule (heights : List ℚ) : List (ℚ × CollapseAction) :=
  ((List.range heights.length).map (fun (j : ℕ) =>
      ((j : ℚ) * 100,
        CollapseAction.hideRow (heights.length - 1 - j)
          ((heights.drop (heights.length - 1 - j)).sum))))
  ++ [((heights.length : ℚ) * 100 + ANIMATION_DURATION, CollapseAction.hideContainer),
      ((heights.length : ℚ) * 100 + ANIMATION_DURATION + 150, CollapseAction.resetAll)]

/-- `collapseNavRowsWithContentMovement`: empty schedule when the container
element is absent (the early `return` on line 257). -/
def collapseNavRowsWithContentMovement (hasContainer : Bool) (heights : List ℚ) :
    List (ℚ × CollapseAction) :=
  if hasContainer then collapseSchedule heights else []

/-- Run a collapse schedule: fold its callbacks, in firing order, over the
style state. -/
def runCollapse (hasContent : Bool) (evs : List (ℚ × CollapseAction))
    (s : StyleState) : StyleState :=
  evs.foldl (fun st e => applyCollapse hasContent e.2 st) s

/-- The inline styles `updateButtonPosition` (lines 396-411) writes. -/
structure ButtonStyle where
  position : String
  top : String
  right : String
deriving DecidableEq, Repr

/-- `updateButtonPosition`: no-op (`none`) when the toggle-button element is
absent; otherwise wide screens (`innerWidth >= 768`) get absolute
positioning, narrow screens fixed positioning. -/
def updateButtonPosition (buttonPresent : Bool) (innerWidth : ℚ) :
    Option ButtonStyle :=
  if buttonPresent then
    if 768 ≤ innerWidth then
      some { position := "absolute", top := "20px", right := "calc(30% + 20px)" }
    else
      some { position := "fixed", top := "20px", right := "20px" }
  else none

/-- Presence of each identified element `document.getElementById` may fail
to resolve; `navRow1` additionally carries its `offsetHeight` because the
constructor reads it. -/
structure Dom where
  contentScroll : Bool
  navRow1 : Option ℚ
  navRow2 : Bool
  navToggle : Bool
  dynamicNavContainer : Bool
  titleRow1 : Bool
  titleRow2 : Bool
deriving DecidableEq, Repr

/-- The collections the constructor and `initializeNavRows` build (rows kept
by element id). -/
structure ConstructedNav where
  transitionPace : ℚ
  navRows : List String
  titleRows : List String
  displayedRowRegistry : List String
deriving DecidableEq, Repr

/-- The `navRows` collection built by the loop on lines 63-74: each of
nav-row-1, nav-row-2 is pushed exactly when it resolves. -/
def initNavRowIds (dom : Dom) : List String :=
  (if dom.navRow1.isSome then ["nav-row-1"] else [])
    ++ (if dom.navRow2 then ["nav-row-2"] else [])

/-- The `titleRows` collection (lines 80-96): each title row is pushed
exactly when it resolves. -/
def initTitleRowIds (dom : Dom) : List String :=
  (if dom.titleRow1 then ["title-row-1"] else [])
    ++ (if dom.titleRow2 then ["title-row-2"] else [])

/-- The displayed-row registry (lines 75, 86, 95): `navRows[0]` (the JS
`undefined` when `navRows` is empty) followed by the resolved title rows. -/
def initRegistryIds (dom : Dom) : List String :=
  [(initNavRowIds dom).headD "undefined"] ++ initTitleRowIds dom

/-- The constructor (lines 30-47).  Line 44 dereferences `this.navRow1!`
without a null check: when nav-row-1 did not resolve, reading
`offsetHeight` of `null` throws a `TypeError`, modelled as `Except.error`.
Otherwise construction completes with the collections of
`initializeNavRows`. -/
def construct (dom : Dom) : Except String ConstructedNav :=
  match dom.navRow1 with
  | none => Except.error "TypeError: navRow1 is null"
  | some h =>
      Except.ok { transitionPace := 100 / h,
                  navRows := initNavRowIds dom,
                  titleRows := initTitleRowIds dom,
                  displayedRowRegistry := initRegistryIds dom }

/-- A two-element displayed-row registry used as concrete input: the second
row's top (10) is above the first row's bottom (50), so it is folded. -/
def reg2 : List RowEl := [⟨0, ⟨0, 50⟩⟩, ⟨1, ⟨10, 90⟩⟩]

/-- The second row of `reg2`. -/
def row1 : RowEl := ⟨1, ⟨10, 90⟩⟩

/-- A `Dom` in which every element resolves except nav-row-1. -/
def domMissingNavRow1 : Dom :=
  { contentScroll := true, navRow1 := none, navRow2 := true, navToggle := true,
    dynamicNavContainer := true, titleRow1 := true, titleRow2 := true }

/-- A `Dom` in which nav-row-1 (height 50) and the title rows resolve but
nav-row-2 does not. -/
def domNoNavRow2 : Dom :=
  { contentScroll := true, navRow1 := some 50, navRow2 := false, navToggle := true,
    dynamicNavContainer := true, titleRow1 := true, titleRow2 := true }

end DynamicNavigation

namespace DynamicNavigation

/-- Claim C5: starting from the initial collapsed state, after N toggle
invocations `getNavExpandedState` reads true iff N is odd. -/
theorem toggle_parity (N : ℕ) :
    getNavExpandedState (toggleNavExpansion^[N] initNavState) = true ↔ Odd N := by
  induction N with
  | zero =>
      simp [getNavExpandedState, initNavState, Nat.odd_iff]
  | succ n ih =>
      rw [Function.iterate_succ_apply']
      rw [show getNavExpandedState (toggleNavExpansion (toggleNavExpansion^[n] initNavState))
            = !getNavExpandedState (toggleNavExpansion^[n] initNavState) from rfl]
      rw [Nat.odd_add_one, ← ih]
      cases getNavExpandedState (toggleNavExpansion^[n] initNavState) <;> simp

/-- Claim C10: `setCurrentRegion` stores any integer unvalidated and
`getCurrentRegion` reads it back exactly; the initial value is 1. -/
theorem region_get_set :
    (∀ (s : NavState) (r : Int), getCurrentRegion (setCurrentRegion s r) = r) ∧
    getCurrentRegion initNavState = 1 :=
  ⟨fun _ _ => rfl, rfl⟩

/-- Claim C9: every resize update puts the toggle button in fixed position
with 20px right offset below 768px window width, and absolute position with
right offset calc(30% + 20px) at or above 768px. -/
theorem button_breakpoint (w : ℚ) :
    (w < 768 →
      updateButtonPosition true w =
        some { position := "fixed", top := "20px", right := "20px" }) ∧
    (768 ≤ w →
      updateButtonPosition true w =
        some { position := "absolute", top := "20px", right := "calc(30% + 20px)" }) := by
  constructor
  · intro h
    simp [updateButtonPosition, if_neg (not_le.mpr h)]
  · intro h
    simp [updateButtonPosition, if_pos h]

/-- Witness for C9 at window widths 500 and 900. -/
theorem button_breakpoint_witness :
    updateButtonPosition true 500 =
      some { position := "fixed", top := "20px", right := "20px" } ∧
    updateButtonPosition true 900 =
      some { position := "absolute", top := "20px", right := "calc(30% + 20px)" } :=
  ⟨(button_breakpoint 500).1 (by norm_num), (button_breakpoint 900).2 (by norm_num)⟩

/-- The transform written by the per-row scroll loop, read back as a pixel
offset: starting the fold at `start`, row `i` ends at
`-min(max(0, t - (start + startPos rows i)), height i)` pixels. -/
theorem updateRowsFrom_getD (t : ℚ) (rows : List NavRow) :
    ∀ (start : ℚ) (i : ℕ), i < rows.length → (∀ r ∈ rows, 0 ≤ r.height) →
      ∀ d : NavRow,
      ((updateRowsFrom t start rows).getD i d).transform.pxVal =
        some (-(min (max 0 (t - (start + startPos rows i))) ((rows.getD i d).height))) := by
  induction rows with
  | nil => intro start i hi; exact absurd hi (by simp)
  | cons r rs ih =>
    intro start i hi hh d
    cases i with
    | zero =>
      simp only [updateRowsFrom, List.getD_cons_zero, startPos, List.take_zero,
        List.map_nil, List.sum_nil, add_zero]
      have h0 : 0 ≤ r.height := hh r (List.mem_cons_self r rs)
      by_cases hst : start ≤ t
      · rw [if_pos hst]
        by_cases hb : r.height ≤ t - start
        · rw [if_pos hb]
          have hmax : max 0 (t - start) = t - start := max_eq_right (by linarith)
          rw [hmax, min_eq_right hb]
          rfl
        · rw [if_neg hb]
          have hmax : max 0 (t - start) = t - start := max_eq_right (by linarith)
          rw [hmax, min_eq_left (le_of_not_le hb)]
          rfl
      · rw [if_neg hst]
        have hmax : max 0 (t - start) = 0 := max_eq_left (by linarith)
        rw [hmax, min_eq_left h0]
        simp [Ty.pxVal]
    | succ j =>
      simp only [updateRowsFrom, List.getD_cons_succ]
      have hlen : j < rs.length := by simpa using hi
      have hh' : ∀ x ∈ rs, 0 ≤ x.height := fun x hx => hh x (List.mem_cons_of_mem r hx)
      have hrec := ih (start + r.height) j hlen hh' d
      rw [hrec]
      have hsp : startPos (r :: rs) (j + 1) = r.height + startPos rs j := by
        simp [startPos, List.take_succ_cons]
      rw [hsp, add_assoc]

/-- Claim C3: while expanded and above the scroll threshold, the
scroll-mirroring update sets row i's translation to
`-min(max(0, (s - t) - sum(h0..h(i-1))), h_i)` pixels. -/
theorem scroll_mirror_formula (rows : List NavRow) (s : ℚ)
    (hs : 0 < s - scrollThreshold) (hh : ∀ r ∈ rows, 0 ≤ r.height)
    (i : ℕ) (hi : i < rows.length) (d : NavRow) :
    ((updateHeaders true s rows).getD i d).transform.pxVal =
      some (-(min (max 0 ((s - scrollThreshold) - startPos rows i))
              ((rows.getD i d).height))) := by
  have h1 : updateHeaders true s rows = updateRowsFrom (s - scrollThreshold) 0 rows := by
    simp only [updateHeaders]
    rw [if_neg (not_le.mpr hs)]
    simp
  rw [h1]
  have hrec := updateRowsFrom_getD (s - scrollThreshold) rows 0 i hi hh d
  rw [hrec, zero_add]

/-- Witness for C3: the spec's concrete scenario — rows of heights 40 and 60,
threshold 10, scroll position 70 while expanded — yields translations
-40px and -20px. -/
theorem scroll_mirror_formula_witness :
    (0:ℚ) < 70 - scrollThreshold ∧
    ((updateHeaders true 70 [⟨40, Ty.zero, "1"⟩, ⟨60, Ty.zero, "1"⟩]).getD 0
        ⟨0, Ty.zero, "1"⟩).transform.pxVal = some (-40) ∧
    ((updateHeaders true 70 [⟨40, Ty.zero, "1"⟩, ⟨60, Ty.zero, "1"⟩]).getD 1
        ⟨0, Ty.zero, "1"⟩).transform.pxVal = some (-20) :=
  ⟨by norm_num [scrollThreshold],
   by
    rw [scroll_mirror_formula _ 70 (by norm_num [scrollThreshold]) (by decide) 0 (by decide)]
    norm_num [startPos, scrollThreshold, min_def, max_def],
   by
    rw [scroll_mirror_formula _ 70 (by norm_num [scrollThreshold]) (by decide) 1 (by decide)]
    norm_num [startPos, scrollThreshold, min_def, max_def]⟩

/-- Each collapse callback preserves the number of nav rows, opacities and
title rows it styles. -/
theorem applyCollapse_lengths (hc : Bool) (a : CollapseAction) (s : StyleState) :
    (applyCollapse hc a s).navTransforms.length = s.navTransforms.length ∧
    (applyCollapse hc a s).navOpacities.length = s.navOpacities.length ∧
    (applyCollapse hc a s).titleTransforms.length = s.titleTransforms.length := by
  cases a <;> simp [applyCollapse]

/-- Running any collapse schedule preserves those lengths. -/
theorem runCollapse_lengths (hc : Bool) (evs : List (ℚ × CollapseAction)) :
    ∀ s : StyleState,
      (runCollapse hc evs s).navTransforms.length = s.navTransforms.length ∧
      (runCollapse hc evs s).navOpacities.length = s.navOpacities.length ∧
      (runCollapse hc evs s).titleTransforms.length = s.titleTransforms.length := by
  induction evs with
  | nil => intro s; exact ⟨rfl, rfl, rfl⟩
  | cons e es ih =>
    intro s
    have h1 := applyCollapse_lengths hc e.2 s
    have h2 := ih (applyCollapse hc e.2 s)
    refine ⟨?_, ?_, ?_⟩ <;>
      simp only [runCollapse, List.foldl_cons] at h2 ⊢ <;> omega

/-- Splitting a collapse schedule: the second half runs on the state the
first half produced. -/
theorem runCollapse_append (hc : Bool) (l1 l2 : List (ℚ × CollapseAction))
    (s : StyleState) :
    runCollapse hc (l1 ++ l2) s = runCollapse hc l2 (runCollapse hc l1 s) := by
  simp [runCollapse, List.foldl_append]

/-- The tail of the collapse schedule — hide the container, then reset — maps
any style state to the neutral state with max-height '0'. -/
theorem runCollapse_hide_reset (x y : ℚ) (s1 : StyleState) :
    runCollapse true [(x, CollapseAction.hideContainer), (y, CollapseAction.resetAll)] s1 =
      { navTransforms := List.replicate s1.navTransforms.length Ty.zero,
        navOpacities := List.replicate s1.navOpacities.length "1",
        titleTransforms := List.replicate s1.titleTransforms.length Ty.zero,
        contentTransform := Ty.zero,
        containerMaxHeight := "0" } := by
  simp [runCollapse, applyCollapse, List.map_const']

/-- Running the full collapse schedule (content element present) ends in the
neutral state: every nav-row transform and title transform identity, every
opacity '1', content identity, container max-height '0'. -/
theorem collapse_run_final (heights : List ℚ) (s : StyleState) :
    runCollapse true (collapseSchedule heights) s =
      { navTransforms := List.replicate s.navTransforms.length Ty.zero,
        navOpacities := List.replicate s.navOpacities.length "1",
        titleTransforms := List.replicate s.titleTransforms.length Ty.zero,
        contentTransform := Ty.zero,
        containerMaxHeight := "0" } := by
  rw [collapseSchedule, runCollapse_append, runCollapse_hide_reset,
    (runCollapse_lengths true _ s).1, (runCollapse_lengths true _ s).2.1,
    (runCollapse_lengths true _ s).2.2]

/-- Claim C4: a collapse invocation whose whole scheduled chain elapses ends
with every animated nav row reset to identity transform and opacity 1, the
title rows' and content transforms reset to identity, and the container at
zero height, the container having been collapsed at delay
`n * 100 + ANIMATION_DURATION`, strictly before the reset at
`n * 100 + ANIMATION_DURATION + 150`. -/
theorem collapse_terminal_state (heights : List ℚ) (s : StyleState) :
    (runCollapse true (collapseNavRowsWithContentMovement true heights) s).navTransforms =
        List.replicate s.navTransforms.length Ty.zero ∧
    (runCollapse true (collapseNavRowsWithContentMovement true heights) s).navOpacities =
        List.replicate s.navOpacities.length "1" ∧
    (runCollapse true (collapseNavRowsWithContentMovement true heights) s).titleTransforms =
        List.replicate s.titleTransforms.length Ty.zero ∧
    (runCollapse true (collapseNavRowsWithContentMovement true heights) s).contentTransform =
        Ty.zero ∧
    (runCollapse true (collapseNavRowsWithContentMovement true heights) s).containerMaxHeight =
        "0" ∧
    ((heights.length : ℚ) * 100 + ANIMATION_DURATION, CollapseAction.hideContainer) ∈
        collapseNavRowsWithContentMovement true heights ∧
    ((heights.length : ℚ) * 100 + ANIMATION_DURATION + 150, CollapseAction.resetAll) ∈
        collapseNavRowsWithContentMovement true heights ∧
    (heights.length : ℚ) * 100 + ANIMATION_DURATION <
        (heights.length : ℚ) * 100 + ANIMATION_DURATION + 150 := by
  have hrun : collapseNavRowsWithContentMovement true heights = collapseSchedule heights := by
    simp [collapseNavRowsWithContentMovement]
  rw [hrun, collapse_run_final heights s]
  refine ⟨rfl, rfl, rfl, rfl, rfl, ?_, ?_, by norm_num⟩
  · simp [collapseSchedule]
  · simp [collapseSchedule]

/-- Claim C7: toggling to expanded with nav rows of heights 40 and 60
schedules row 0 at delay 0 ms, row 1 at delay 100 ms, and the title rows'
reset at delay 2 * 100 + 100 = 300 ms. -/
theorem expand_stagger_concrete :
    expandNavRows true [40, 60] =
      some { containerMaxHeightPx := 100, rowAppearDelays := [0, 100],
             titleResetDelay := 300 } := by
  norm_num [expandNavRows, List.range_succ]

/-- Claim C6: the scroll-mirroring update leaves the rows untouched whenever
the expansion state is false, and the collapse chain, once fully elapsed,
leaves every nav-row transform at identity — no residual scroll
translation. -/
theorem scroll_mirror_only_when_expanded :
    (∀ (scrollTop : ℚ) (rows : List NavRow),
      updateHeaders false scrollTop rows = rows) ∧
    (∀ (heights : List ℚ) (s : StyleState),
      (runCollapse true (collapseNavRowsWithContentMovement true heights) s).navTransforms =
        List.replicate s.navTransforms.length Ty.zero) := by
  constructor
  · intro scrollTop rows
    simp [updateHeaders]
  · intro heights s
    have h : collapseNavRowsWithContentMovement true heights = collapseSchedule heights := by
      simp [collapseNavRowsWithContentMovement]
    rw [h, collapse_run_final]

/-- In a duplicate-free registry, `indexOf` recovers the position of an
entry read off by position (distinct ids make `===` agree with equality). -/
theorem indexOf_get_of_nodup {α : Type} [DecidableEq α] {l : List α}
    (hnd : l.Nodup) (k : ℕ) (hk : k < l.length) :
    l.indexOf (l.get ⟨k, hk⟩) = k := by
  have hmem : l.get ⟨k, hk⟩ ∈ l := l.get_mem k hk
  have hlt : l.indexOf (l.get ⟨k, hk⟩) < l.length := List.indexOf_lt_length.mpr hmem
  have hres : l.get ⟨l.indexOf (l.get ⟨k, hk⟩), hlt⟩ = l.get ⟨k, hk⟩ :=
    List.indexOf_get hlt
  have hfin := (List.Nodup.get_inj_iff hnd).mp hres
  exact congrArg Fin.val hfin

/-- `head?` of a nonempty list is its entry at position 0. -/
theorem head?_eq_get_zero {α : Type} (l : List α) (h0 : 0 < l.length) :
    l.head? = some (l.get ⟨0, h0⟩) := by
  cases l with
  | nil => simp at h0
  | cons a t => rfl

/-- The fold test on the entry at position k of a duplicate-free registry:
true iff k > 0 and its top is strictly above the bottom of the entry at
position k-1. -/
theorem isRowFolded_get_iff (registry : List RowEl) (hnd : registry.Nodup)
    (k : ℕ) (hk : k < registry.length) :
    isRowFolded registry (registry.get ⟨k, hk⟩) = true ↔
      0 < k ∧ (registry.get ⟨k, hk⟩).rect.top <
        (registry.getD (k - 1) default).rect.bottom := by
  have h0 : 0 < registry.length := Nat.lt_of_le_of_lt (Nat.zero_le k) hk
  by_cases hk0 : k = 0
  · subst hk0
    have hhead : registry.head? = some (registry.get ⟨0, hk⟩) :=
      head?_eq_get_zero registry h0
    rw [isRowFolded, if_pos hhead]
    simp
  · have hne : registry.head? ≠ some (registry.get ⟨k, hk⟩) := by
      rw [head?_eq_get_zero registry h0]
      intro hcon
      have heq : registry.get ⟨0, h0⟩ = registry.get ⟨k, hk⟩ := Option.some.inj hcon
      have hfin := (List.Nodup.get_inj_iff hnd).mp heq
      exact hk0 (congrArg Fin.val hfin).symm
    rw [isRowFolded, if_neg hne]
    rw [indexOf_get_of_nodup hnd k hk, decide_eq_true_eq]
    exact ⟨fun h => ⟨Nat.pos_of_ne_zero hk0, h⟩, fun h => h.2⟩

/-- Claim C8: for every row of the displayed sequence the fold test is true
iff the row's measured top is strictly above its immediate predecessor's
measured bottom, and it is false for the first row. -/
theorem fold_test (registry : List RowEl) (hnd : registry.Nodup) :
    (∀ (k : ℕ) (hk : k < registry.length),
      isRowFolded registry (registry.get ⟨k, hk⟩) = true ↔
        0 < k ∧ (registry.get ⟨k, hk⟩).rect.top <
          (registry.getD (k - 1) default).rect.bottom) ∧
    (∀ h0 : 0 < registry.length,
      isRowFolded registry (registry.get ⟨0, h0⟩) = false) := by
  refine ⟨fun k hk => isRowFolded_get_iff registry hnd k hk, fun h0 => ?_⟩
  have hiff := isRowFolded_get_iff registry hnd 0 h0
  cases hb : isRowFolded registry (registry.get ⟨0, h0⟩) with
  | false => rfl
  | true => exact absurd (hiff.mp hb) (by simp)

/-- Witness for C8 on the concrete registry `reg2`: its second row (top 10,
predecessor bottom 50) is folded. -/
theorem fold_test_witness :
    reg2.Nodup ∧ isRowFolded reg2 row1 = true := by
  refine ⟨by decide, ?_⟩
  exact ((fold_test reg2 (by decide)).1 1 (by decide)).mpr (by decide)

/-- Counterexample to C1 on `reg2` (predecessor bottom 50, row top 10, folded,
reference height 50 so pace = 2): the code computes distance = top − bottom
= −40, the negation of the claimed bottom − top = 40, so the distance is not
≥ 0 and the returned duration is −80, not the claimed 40 × 2 = 80. -/
theorem expand_row_sign_counterexample :
    isRowFolded reg2 row1 = true ∧
    expandRowDistance reg2 row1 = -40 ∧
    specClaimedExpandDistance reg2 row1 = 40 ∧
    (expandRow (transitionPace 50) reg2 row1 0).1 = -80 ∧
    ¬ 0 ≤ expandRowDistance reg2 row1 ∧
    (expandRow (transitionPace 50) reg2 row1 0).1 ≠
      transitionPace 50 * specClaimedExpandDistance reg2 row1 := by
  have hfold : isRowFolded reg2 row1 = true := by decide
  have hidx : List.indexOf row1 reg2 = 1 := by decide
  have hd : expandRowDistance reg2 row1 = -40 := by
    rw [expandRowDistance, hidx]
    norm_num [reg2, row1]
  have hs : specClaimedExpandDistance reg2 row1 = 40 := by
    rw [specClaimedExpandDistance, hidx]
    norm_num [reg2, row1]
  have hpace : transitionPace 50 = 2 := by norm_num [transitionPace]
  have hret : (expandRow (transitionPace 50) reg2 row1 0).1 = -80 := by
    rw [expandRow, if_neg (by rw [hfold]; simp)]
    rw [hpace, hd]
    norm_num
  refine ⟨hfold, hd, hs, hret, by rw [hd]; norm_num, by rw [hret, hpace, hs]; norm_num⟩

/-- Claim C1 as amended: for a folded row at position k of a duplicate-free
registry, with pace = 100 ms ÷ the reference (nav-row-1) height, `expandRow`
computes distance = row's top − predecessor's bottom — the negation of the
spec's value, hence strictly negative when the pre-expand geometry is read;
it schedules, at the base time, the row and every row after it in the
sequence to receive the transform template interpolating the negated
distance (Ty.negPx, invalid CSS here since distance < 0) with transition
duration distance × pace, and returns distance × pace (negative). -/
theorem expand_row_amended (navRow1Height : ℚ) (registry : List RowEl)
    (hnd : registry.Nodup) (k : ℕ) (hk : k < registry.length) (baseTime : ℚ)
    (hfold : isRowFolded registry (registry.get ⟨k, hk⟩) = true) :
    expandRowDistance registry (registry.get ⟨k, hk⟩) =
        -(specClaimedExpandDistance registry (registry.get ⟨k, hk⟩)) ∧
    expandRowDistance registry (registry.get ⟨k, hk⟩) < 0 ∧
    (expandRow (transitionPace navRow1Height) registry (registry.get ⟨k, hk⟩) baseTime).1 =
        transitionPace navRow1Height * expandRowDistance registry (registry.get ⟨k, hk⟩) ∧
    (∀ i : ℕ, k ≤ i → i < registry.length →
      ({ index := i, time := baseTime,
         transform := Ty.negPx (expandRowDistance registry (registry.get ⟨k, hk⟩)),
         transitionDurationMs :=
           transitionPace navRow1Height *
             expandRowDistance registry (registry.get ⟨k, hk⟩) } : RowMove) ∈
        (expandRow (transitionPace navRow1Height) registry
          (registry.get ⟨k, hk⟩) baseTime).2) ∧
    (∀ m ∈ (expandRow (transitionPace navRow1Height) registry
        (registry.get ⟨k, hk⟩) baseTime).2,
      k ≤ m.index ∧ m.index < registry.length ∧ m.time = baseTime ∧
      m.transform = Ty.negPx (expandRowDistance registry (registry.get ⟨k, hk⟩)) ∧
      m.transitionDurationMs =
        transitionPace navRow1Height *
          expandRowDistance registry (registry.get ⟨k, hk⟩)) := by
  have hidx : registry.indexOf (registry.get ⟨k, hk⟩) = k :=
    indexOf_get_of_nodup hnd k hk
  obtain ⟨hkpos, htop⟩ := (isRowFolded_get_iff registry hnd k hk).mp hfold
  have hexp : expandRow (transitionPace navRow1Height) registry
      (registry.get ⟨k, hk⟩) baseTime =
      (transitionPace navRow1Height * expandRowDistance registry (registry.get ⟨k, hk⟩),
        ((List.range registry.length).filter (fun i => decide (k ≤ i))).map
          (fun i => { index := i, time := baseTime,
                      transform :=
                        Ty.negPx (expandRowDistance registry (registry.get ⟨k, hk⟩)),
                      transitionDurationMs :=
                        transitionPace navRow1Height *
                          expandRowDistance registry (registry.get ⟨k, hk⟩) })) := by
    rw [expandRow, if_neg (by rw [hfold]; simp), hidx]
  refine ⟨?_, ?_, ?_, ?_, ?_⟩
  · rw [expandRowDistance, specClaimedExpandDistance]
    ring
  · rw [expandRowDistance, hidx]
    linarith
  · rw [hexp]
  · intro i hki hil
    rw [hexp]
    exact List.mem_map.mpr
      ⟨i, List.mem_filter.mpr ⟨List.mem_range.mpr hil, decide_eq_true hki⟩, rfl⟩
  · intro m hm
    rw [hexp] at hm
    rcases List.mem_map.mp hm with ⟨i, hif, rfl⟩
    rcases List.mem_filter.mp hif with ⟨hir, hdec⟩
    exact ⟨of_decide_eq_true hdec, List.mem_range.mp hir, rfl, rfl, rfl⟩

/-- Witness for the amended C1 with reference height 50 (pace 2) on `reg2`:
the distance is negative and the returned duration is pace × distance. -/
theorem expand_row_amended_witness :
    reg2.Nodup ∧ isRowFolded reg2 row1 = true ∧
    expandRowDistance reg2 row1 < 0 ∧
    (expandRow (transitionPace 50) reg2 row1 0).1 =
      transitionPace 50 * expandRowDistance reg2 row1 := by
  refine ⟨by decide, by decide, ?_, ?_⟩
  · exact (expand_row_amended 50 reg2 (by decide) 1 (by decide) 0 (by decide)).2.1
  · exact (expand_row_amended 50 reg2 (by decide) 1 (by decide) 0 (by decide)).2.2.1

/-- Counterexample to C2: in a page where every element resolves except
nav-row-1, construction does not complete silently — the non-null assertion
on line 44 dereferences null and throws. -/
theorem construct_missing_reference_row_counterexample :
    domMissingNavRow1.navRow1 = none ∧
    construct domMissingNavRow1 = Except.error "TypeError: navRow1 is null" :=
  ⟨rfl, rfl⟩

/-- Claim C2 as amended: whenever nav-row-1 resolves (with height h),
construction completes without error; each of the other elements that fails
to resolve is omitted from its collection (nav rows, title rows,
displayed-row registry) and the container- and button-dependent operations
no-op when their element is absent. -/
theorem construct_amended (dom : Dom) (h : ℚ) (hnav : dom.navRow1 = some h) :
    (construct dom).isOk = true ∧
    construct dom = Except.ok
      { transitionPace := (100 / h), navRows := initNavRowIds dom,
        titleRows := initTitleRowIds dom,
        displayedRowRegistry := initRegistryIds dom } ∧
    (dom.navRow2 = false → "nav-row-2" ∉ initNavRowIds dom) ∧
    (dom.titleRow1 = false →
      "title-row-1" ∉ initTitleRowIds dom ∧ "title-row-1" ∉ initRegistryIds dom) ∧
    (dom.titleRow2 = false →
      "title-row-2" ∉ initTitleRowIds dom ∧ "title-row-2" ∉ initRegistryIds dom) ∧
    (∀ heights : List ℚ, expandNavRows false heights = none) ∧
    (∀ heights : List ℚ, collapseNavRowsWithContentMovement false heights = []) ∧
    (∀ w : ℚ, updateButtonPosition false w = none) := by
  refine ⟨?_, ?_, ?_, ?_, ?_, fun _ => rfl, fun _ => rfl, fun _ => rfl⟩
  · simp [construct, hnav, Except.isOk, Except.toBool]
  · simp [construct, hnav]
  · intro h2
    simp [initNavRowIds, hnav, h2]
  · intro h1
    cases h2 : dom.titleRow2 <;>
      simp [initTitleRowIds, initRegistryIds, initNavRowIds, hnav, h1, h2]
  · intro h2
    cases h1 : dom.titleRow1 <;>
      simp [initTitleRowIds, initRegistryIds, initNavRowIds, hnav, h1, h2]

/-- Witness for the amended C2: with nav-row-1 of height 50 present and
nav-row-2 absent, construction succeeds and nav-row-2 is omitted. -/
theorem construct_amended_witness :
    (construct domNoNavRow2).isOk = true ∧
    "nav-row-2" ∉ initNavRowIds domNoNavRow2 :=
  ⟨(construct_amended domNoNavRow2 50 rfl).1,
   (construct_amended domNoNavRow2 50 rfl).2.2.1 rfl⟩

end DynamicNavigation
